import Mathlib

/-!
Shallow embedding of `src/reports/generate_report_gate_system.py`.

The script loads a CSV into a pandas `DataFrame` (one row per heap-memory
sample), derives auxiliary columns, filters rows by string matching on the
`event` column, and emits summary tables.  We model the data frame as a
`List Row`, numeric cells as `ℚ`, regex `str.contains` searches as literal
substring tests (each regex in the script is an alternation of string
literals), and the unguarded `iloc[0]` lookups -- which raise `IndexError`
when the filtered frame is empty -- as `Option`-valued lookups, `none`
standing for the abort.

A hand-trace of the control flow shows that line 73,

  `init_events['operation'] = init_events['event'].str.extract(r'(Before|After)(.+)')`,

faults on every input: `str.extract` with two capture groups returns a
two-column DataFrame, and pandas raises
`ValueError: Cannot set a DataFrame with multiple columns to the single
column operation` when such a frame is assigned to one column.  Lines
70-73 run unconditionally right after the first chart, so every run dies
there and everything from line 74 on -- including the summary frames of
lines 197-284, the pie chart and the line-322-324 CSV exports -- is dead
code.  (Lines 74-75 read the assigned column back with `.str.get`, and
line 319 prints a completion message: the script plainly intends execution
to continue past line 73, so the fault is a slip.)  We embed the reachable
lines 8-39 as total functions, model the line-73 assignment explicitly
(`operation_column`, always `none`), and also embed the dead summary code
so its intended outputs can be compared against the spec's description of
them.
-/

namespace GateReport

/-- One CSV row of `memory_gate_system.csv` (columns of the script's `df`).
Numeric columns are modelled as `ℚ`; the script does exact integer reads
followed by true division, which `ℚ` reproduces. -/
structure Row where
  timestamp : ℚ
  event : String
  free_heap : ℚ
  total_allocated_bytes : ℚ
  largest_free_block : ℚ
  min_free_heap : ℚ
deriving DecidableEq

/-- `leadsWith n h` is true when the char list `n` is an initial segment
of `h` (helper for the substring test). -/
def leadsWith : List Char → List Char → Bool
  | [], _ => true
  | _ :: _, [] => false
  | a :: n, b :: h => a == b && leadsWith n h

/-- `hasSub n h` is true when `n` occurs as a contiguous run inside `h`;
this is what an unanchored regex search for the literal string `n` tests. -/
def hasSub (n : List Char) : List Char → Bool
  | [] => leadsWith n []
  | c :: rest => leadsWith n (c :: rest) || hasSub n rest

/-- `strContains hay needle`: the unanchored search `needle in hay`, the
semantics of pandas `Series.str.contains` for a literal pattern. -/
def strContains (hay needle : String) : Bool :=
  hasSub needle.toList hay.toList

/-- Specification-level substring relation: `needle` occurs in `hay`,
phrased as a decomposition of the character list. -/
def SpecContains (hay needle : String) : Prop :=
  ∃ p q : List Char, hay.toList = p ++ needle.toList ++ q

theorem leadsWith_iff : ∀ (n h : List Char), leadsWith n h = true ↔ ∃ t, h = n ++ t
  | [], h => by simp [leadsWith]
  | a :: n, [] => by simp [leadsWith]
  | a :: n, b :: h => by
    simp only [leadsWith, Bool.and_eq_true, beq_iff_eq, leadsWith_iff n h]
    constructor
    · rintro ⟨rfl, t, rfl⟩
      exact ⟨t, rfl⟩
    · rintro ⟨t, ht⟩
      injection ht with h1 h2
      exact ⟨h1.symm, t, h2⟩

theorem hasSub_iff : ∀ (n h : List Char), hasSub n h = true ↔ ∃ p q, h = p ++ n ++ q
  | n, [] => by
    simp only [hasSub, leadsWith_iff]
    constructor
    · rintro ⟨t, ht⟩
      exact ⟨[], t, by simpa using ht⟩
    · rintro ⟨p, q, hpq⟩
      refine ⟨q, ?_⟩
      rcases List.append_eq_nil.mp (List.append_eq_nil.mp hpq.symm).1 with ⟨rfl, rfl⟩
      simpa using hpq
  | n, c :: h => by
    simp only [hasSub, Bool.or_eq_true, leadsWith_iff, hasSub_iff n h]
    constructor
    · rintro (⟨t, ht⟩ | ⟨p, q, hpq⟩)
      · exact ⟨[], t, by simpa using ht⟩
      · exact ⟨c :: p, q, by simp [hpq]⟩
    · rintro ⟨p, q, hpq⟩
      cases p with
      | nil => exact Or.inl ⟨q, by simpa using hpq⟩
      | cons x p =>
        injection hpq with h1 h2
        exact Or.inr ⟨p, q, h2⟩

theorem strContains_iff (hay needle : String) :
    strContains hay needle = true ↔ SpecContains hay needle :=
  hasSub_iff needle.toList hay.toList

/-- Line 17: the regex `Before|After (WiFi|MQTT|Servo) init` is a top-level
alternation whose branches are the literal strings below, so the search
succeeds exactly when one of them occurs in the event text. -/
def initMatch (e : String) : Bool :=
  strContains e "Before" || strContains e "After WiFi init" ||
    strContains e "After MQTT init" || strContains e "After Servo init"

/-- Line 18: the regex `(Before|After) open entry gate|(Before|After) close
entry gate` distributes to four literal alternatives (the groups only
capture, they do not change what matches). -/
def gateMatch (e : String) : Bool :=
  strContains e "Before open entry gate" || strContains e "After open entry gate" ||
    strContains e "Before close entry gate" || strContains e "After close entry gate"

/-- Line 17: `init_data = df[df['event'].str.contains('Before|After (WiFi|MQTT|Servo) init')]`. -/
def init_data (df : List Row) : List Row :=
  df.filter fun r => initMatch r.event

/-- Line 18: `gate_ops = df[df['event'].str.contains(...)]`. -/
def gate_ops (df : List Row) : List Row :=
  df.filter fun r => gateMatch r.event

/-- Line 21 before the line-26 truncation: gate rows whose event contains
`Before`. -/
def gate_ops_before_all (df : List Row) : List Row :=
  (gate_ops df).filter fun r => strContains r.event "Before"

/-- Line 22 before the line-27 truncation: gate rows whose event contains
`After`. -/
def gate_ops_after_all (df : List Row) : List Row :=
  (gate_ops df).filter fun r => strContains r.event "After"

/-- Line 25: `min_ops = min(len(gate_ops_before), len(gate_ops_after))`. -/
def min_ops (df : List Row) : ℕ :=
  min (gate_ops_before_all df).length (gate_ops_after_all df).length

/-- Line 26: `gate_ops_before.iloc[:min_ops]`. -/
def gate_ops_before (df : List Row) : List Row :=
  (gate_ops_before_all df).take (min_ops df)

/-- Line 27: `gate_ops_after.iloc[:min_ops]`. -/
def gate_ops_after (df : List Row) : List Row :=
  (gate_ops_after_all df).take (min_ops df)

/-- One row of the script's `gate_ops_memory` frame (lines 30-39). -/
structure GateOp where
  operation_number : ℕ
  free_heap_before : ℚ
  free_heap_after : ℚ
  allocated_before : ℚ
  allocated_after : ℚ
  memory_used : ℚ
  allocation_increase : ℚ
deriving DecidableEq

/-- The `gate_ops_memory` row built from the before-row `b` and after-row
`c` at zero-based position `i`: lines 31-35 copy the snapshots (with
`operation_number = i + 1` from `range(1, min_ops + 1)`), lines 38-39 derive
`memory_used` and `allocation_increase`. -/
def mkGateOp (i : ℕ) (b c : Row) : GateOp :=
  { operation_number := i + 1
    free_heap_before := b.free_heap
    free_heap_after := c.free_heap
    allocated_before := b.total_allocated_bytes
    allocated_after := c.total_allocated_bytes
    memory_used := b.free_heap - c.free_heap
    allocation_increase := c.total_allocated_bytes - b.total_allocated_bytes }

/-- Positional zip of the before- and after-rows, carrying the running
zero-based index `k`. -/
def pairRows : ℕ → List Row → List Row → List GateOp
  | _, [], _ => []
  | _, _ :: _, [] => []
  | k, b :: bs, c :: cs => mkGateOp k b c :: pairRows (k + 1) bs cs

/-- Lines 30-39: `gate_ops_memory` pairs the truncated before/after frames
column-wise (`.values` aligns them positionally). -/
def gate_ops_memory (df : List Row) : List GateOp :=
  pairRows 0 (gate_ops_before df) (gate_ops_after df)

theorem pairRows_length : ∀ (k : ℕ) (bs cs : List Row),
    (pairRows k bs cs).length = min bs.length cs.length
  | _, [], _ => by simp [pairRows]
  | _, _ :: _, [] => by simp [pairRows]
  | k, b :: bs, c :: cs => by
    simp [pairRows, pairRows_length (k + 1) bs cs, Nat.succ_min_succ]

theorem pairRows_get : ∀ (k : ℕ) (bs cs : List Row) (i : ℕ)
    (h : i < (pairRows k bs cs).length),
    ∃ (hb : i < bs.length) (hc : i < cs.length),
      (pairRows k bs cs).get ⟨i, h⟩ = mkGateOp (k + i) (bs.get ⟨i, hb⟩) (cs.get ⟨i, hc⟩)
  | _, [], _, i, h => by simp [pairRows] at h
  | _, _ :: _, [], i, h => by simp [pairRows] at h
  | k, b :: bs, c :: cs, 0, h =>
    ⟨Nat.succ_pos _, Nat.succ_pos _, by simp [pairRows]⟩
  | k, b :: bs, c :: cs, i + 1, h => by
    have h' : i < (pairRows (k + 1) bs cs).length := by
      simpa [pairRows, Nat.succ_lt_succ_iff] using h
    obtain ⟨hb, hc, he⟩ := pairRows_get (k + 1) bs cs i h'
    refine ⟨Nat.succ_lt_succ hb, Nat.succ_lt_succ hc, ?_⟩
    show (pairRows (k + 1) bs cs).get ⟨i, h'⟩ = _
    rw [he]
    congr 1
    omega

theorem pairRows_mem : ∀ (k : ℕ) (bs cs : List Row) (g : GateOp),
    g ∈ pairRows k bs cs →
    g.memory_used = g.free_heap_before - g.free_heap_after ∧
      g.allocation_increase = g.allocated_after - g.allocated_before
  | _, [], _, g, h => by simp [pairRows] at h
  | _, _ :: _, [], g, h => by simp [pairRows] at h
  | k, b :: bs, c :: cs, g, h => by
    rcases List.mem_cons.mp h with rfl | h'
    · exact ⟨rfl, rfl⟩
    · exact pairRows_mem (k + 1) bs cs g h'

/-- Element access through `List.take`: taking a front segment does not
change the rows at indices inside it. -/
theorem take_get : ∀ (l : List Row) (m i : ℕ) (h : i < (l.take m).length)
    (h' : i < l.length), (l.take m).get ⟨i, h⟩ = l.get ⟨i, h'⟩
  | [], m, i, h, h' => by simp at h'
  | x :: l, 0, i, h, h' => by simp at h
  | x :: l, m + 1, 0, h, h' => rfl
  | x :: l, m + 1, i + 1, h, h' => by
    have hh : i < (l.take m).length := by simpa using h
    exact take_get l m i hh (Nat.lt_of_succ_lt_succ h')

theorem length_gate_ops_before (df : List Row) :
    (gate_ops_before df).length = min_ops df := by
  simp [gate_ops_before, min_ops, List.length_take, Nat.min_assoc, Nat.min_self]

theorem length_gate_ops_after (df : List Row) :
    (gate_ops_after df).length = min_ops df := by
  simp [gate_ops_after, min_ops, List.length_take]

/-- Line 72: `init_events = df[df['event'].str.contains('Before|After')]`,
the frame the line-73 extraction is applied to. -/
def init_events (df : List Row) : List Row :=
  df.filter fun r => strContains r.event "Before" || strContains r.event "After"

/-- The per-row result of `str.extract(r'(Before|After)(.+)')`: scanning
left to right, the first position where the literal `Before` (tried first)
or `After` matches with at least one character remaining yields the pair
(matched alternative, rest of the text); `none` is pandas `NaN` for a row
with no match. -/
def phaseSplit : List Char → Option (String × String)
  | [] => none
  | c :: rest =>
    if leadsWith "Before".toList (c :: rest) && !(List.drop 6 (c :: rest)).isEmpty then
      some ("Before", String.mk (List.drop 6 (c :: rest)))
    else if leadsWith "After".toList (c :: rest) && !(List.drop 5 (c :: rest)).isEmpty then
      some ("After", String.mk (List.drop 5 (c :: rest)))
    else phaseSplit rest

/-- The right-hand side of line 73: `str.extract` returns one column per
capture group, and `(Before|After)(.+)` has two groups, so the result is a
two-column DataFrame -- the matched alternatives and the captured
remainders over the `init_events` rows. -/
def extract_operation_columns (df : List Row) : List (List (Option String)) :=
  [(init_events df).map fun r => (phaseSplit r.event.toList).map Prod.fst,
    (init_events df).map fun r => (phaseSplit r.event.toList).map Prod.snd]

/-- Pandas assignment of a DataFrame to a single column
(`frame['col'] = value`): it succeeds only when the assigned frame has
exactly one column, otherwise pandas raises `ValueError: Cannot set a
DataFrame with multiple columns to the single column ...` (here `none`). -/
def setSingleColumn (cols : List (List (Option String))) : Option (List (Option String)) :=
  match cols with
  | [c] => some c
  | _ => none

/-- Line 73 itself: the two-column extraction result assigned to the single
column `operation`.  The assigned frame always has two columns, so this is
`none` -- the unconditional `ValueError` that kills every run before
line 77. -/
def operation_column (df : List Row) : Option (List (Option String)) :=
  setSingleColumn (extract_operation_columns df)

/-- `df[df['event'] == label].iloc[0]` as an `Option`: the first row whose
event exactly equals `label`, `none` when the filtered frame is empty (the
script would raise `IndexError` there). -/
def firstWith (df : List Row) (label : String) : Option Row :=
  df.find? fun r => r.event == label

/-- Line 153 (and identically line 260, the `Fragmentation Index` column):
`(1 - largest_free_block / free_heap) * 100`. -/
def fragmentation_percent (r : Row) : ℚ :=
  (1 - r.largest_free_block / r.free_heap) * 100

/-- One row of the script's `init_summary` frame (lines 197-214): the
`Operation`, `Before (bytes)`, `After (bytes)`, `Delta (bytes)` and
`% of Initial Memory` columns. -/
structure InitRow where
  operation : String
  before_bytes : ℚ
  after_bytes : ℚ
  delta_bytes : ℚ
  pct_of_initial : ℚ
deriving DecidableEq

/-- Lines 197-214: `init_summary`.  These lines are unreachable -- every
run faults at line 73 first -- so this embeds the summary they would
build were they executed.  Each `Before`/`After` cell is
`df[df['event'] == '...']['free_heap'].iloc[0]`; `none` is the
`IndexError` those lookups would raise on an absent exact label.  Line 213
derives `Delta = Before - After`; line 214 divides every delta by the
first row's `Before` value (the free heap at `Before WiFi init`) and
scales by 100. -/
def init_summary (df : List Row) : Option (List InitRow) :=
  (firstWith df "Before WiFi init").bind fun bw =>
  (firstWith df "Before Servo init").bind fun bs =>
  (firstWith df "Before MQTT init").bind fun bm =>
  (firstWith df "After WiFi init").bind fun aw =>
  (firstWith df "After Servo init").bind fun asv =>
  (firstWith df "After MQTT init").map fun am =>
    [⟨"WiFi Init", bw.free_heap, aw.free_heap, bw.free_heap - aw.free_heap,
        (bw.free_heap - aw.free_heap) / bw.free_heap * 100⟩,
      ⟨"Servo Init", bs.free_heap, asv.free_heap, bs.free_heap - asv.free_heap,
        (bs.free_heap - asv.free_heap) / bw.free_heap * 100⟩,
      ⟨"MQTT Init", bm.free_heap, am.free_heap, bm.free_heap - am.free_heap,
        (bm.free_heap - am.free_heap) / bw.free_heap * 100⟩,
      ⟨"Total System Init", bw.free_heap, am.free_heap, bw.free_heap - am.free_heap,
        (bw.free_heap - am.free_heap) / bw.free_heap * 100⟩]

/-- A pandas column mean: `NaN` (here `none`) on an empty column, otherwise
the sum divided by the count. -/
def colMean (xs : List ℚ) : Option ℚ :=
  if xs.isEmpty then none else some (xs.sum / xs.length)

/-- One row of the script's `operation_summary` frame (lines 233-240).
Cells of the appended `Average` row are `NaN` when the gate-operation set
is empty, so the numeric cells are `Option ℚ`. -/
structure OpSumRow where
  operation : String
  free_heap_before : Option ℚ
  free_heap_after : Option ℚ
  memory_used : Option ℚ
  allocated_before : Option ℚ
  allocated_after : Option ℚ
deriving DecidableEq

/-- Lines 233-240 (unreachable, see line 73): one `Gate Op #i` row per
`gate_ops_memory` row, then an `Average` row holding each column's mean. -/
def operation_summary (df : List Row) : List OpSumRow :=
  ((gate_ops_memory df).map fun g =>
    ⟨"Gate Op #" ++ toString g.operation_number, some g.free_heap_before,
      some g.free_heap_after, some g.memory_used, some g.allocated_before,
      some g.allocated_after⟩) ++
  [⟨"Average",
      colMean ((gate_ops_memory df).map GateOp.free_heap_before),
      colMean ((gate_ops_memory df).map GateOp.free_heap_after),
      colMean ((gate_ops_memory df).map GateOp.memory_used),
      colMean ((gate_ops_memory df).map GateOp.allocated_before),
      colMean ((gate_ops_memory df).map GateOp.allocated_after)⟩]

/-- One row of the script's `frag_summary` frame (lines 279-284): the
`Operation Stage`, `Free Heap`, `Largest Free Block` and
`Fragmentation Index (%)` columns. -/
structure FragRow where
  stage : String
  free_heap : ℚ
  largest_free_block : ℚ
  frag_index : ℚ
deriving DecidableEq

/-- A `frag_stages` entry taken from a single data row: its event label,
its heap snapshots, and the line-260 per-row fragmentation index. -/
def fragRowOf (r : Row) : FragRow :=
  ⟨r.event, r.free_heap, r.largest_free_block, fragmentation_percent r⟩

/-- Mean of a rational column (used only on nonempty gate-operation sets,
where pandas `mean` returns `sum / count`). -/
def meanQ (xs : List ℚ) : ℚ :=
  xs.sum / xs.length

/-- Lines 263-269: the three guarded single-row stages of `frag_stages`,
each present exactly when its exact event label occurs in the data. -/
def frag_init_stages (df : List Row) : List FragRow :=
  ((firstWith df "Before WiFi init").toList.map fragRowOf) ++
    ((firstWith df "After WiFi init").toList.map fragRowOf) ++
    ((firstWith df "After MQTT init").toList.map fragRowOf)

/-- Lines 273-275: `gate_ops.mean(numeric_only=True)` relabelled
`During Operations`, with a fragmentation index computed from the column
means of `largest_free_block` and `free_heap`. -/
def gate_ops_avg_row (df : List Row) : FragRow :=
  ⟨"During Operations",
    meanQ ((gate_ops df).map Row.free_heap),
    meanQ ((gate_ops df).map Row.largest_free_block),
    (1 - meanQ ((gate_ops df).map Row.largest_free_block) /
        meanQ ((gate_ops df).map Row.free_heap)) * 100⟩

/-- Lines 263-284 (unreachable, see line 73): `frag_summary`, the three
guarded init stages followed by the `During Operations` average row,
appended only when `len(gate_ops) > 0` (line 272). -/
def frag_summary (df : List Row) : List FragRow :=
  frag_init_stages df ++
    (if (gate_ops df).isEmpty then [] else [gate_ops_avg_row df])

/-- Lines 303-304 (unreachable, see line 73): the first row with event
exactly `After MQTT init`, feeding the pie chart; the whole block is
skipped when there is none. -/
def final_init (df : List Row) : Option Row :=
  firstWith df "After MQTT init"

/-- Lines 303-317 (unreachable, see line 73): the pie chart's two wedge
values, `[final_init['total_allocated_bytes'], final_init['free_heap']]`,
which the dead code would produce only when an `After MQTT init` row
exists. -/
def pie_chart (df : List Row) : Option (ℚ × ℚ) :=
  (final_init df).map fun r => (r.total_allocated_bytes, r.free_heap)

/-- Everything the script would produce from line 197 on (summary tables,
pie chart, and the three CSV exports of lines 322-324) were execution to
get there. -/
structure ReportOutputs where
  initSummary : List InitRow
  operationSummary : List OpSumRow
  fragSummary : List FragRow
  pie : Option (ℚ × ℚ)
deriving DecidableEq

/-- The script's tail from line 70 on, with its abort points in program
order: first the line-73 single-column assignment of the two-column
extraction (`operation_column`, which always faults -- pandas
`ValueError`), then the line-197 exact-label lookups (`init_summary`,
`IndexError` on a missing label), then the remaining summary outputs and
the CSV exports of lines 322-324.  Because the first factor is always
`none`, this is `none` on every input: no run ever produces the summary
tables, the pie chart or the CSV files.  (On an empty frame the run would
already die at line 61's `iloc[0]`, also before any of these outputs.) -/
def reports (df : List Row) : Option ReportOutputs :=
  (operation_column df).bind fun _ =>
    (init_summary df).map fun isum =>
      ⟨isum, operation_summary df, frag_summary df, pie_chart df⟩

/-- A complete sample run: the six initialization events (with the free-heap
figures of the spec's worked example) followed by one gate cycle. -/
def dfFull : List Row :=
  [⟨0, "Before WiFi init", 100000, 20000, 80000, 50000⟩,
    ⟨1, "After WiFi init", 95000, 25000, 76000, 50000⟩,
    ⟨2, "Before Servo init", 95000, 25000, 76000, 50000⟩,
    ⟨3, "After Servo init", 93000, 27000, 74000, 50000⟩,
    ⟨4, "Before MQTT init", 93000, 27000, 74000, 50000⟩,
    ⟨5, "After MQTT init", 90000, 30000, 72000, 50000⟩,
    ⟨6, "Before open entry gate", 89000, 31000, 71000, 50000⟩,
    ⟨7, "After open entry gate", 88000, 32000, 70000, 50000⟩]

/-- The initialization summary the unreachable lines 197-214 would derive
from `dfFull`, with the delta and percentage cells kept as the
line-213/214 expressions. -/
def lFull : List InitRow :=
  [⟨"WiFi Init", 100000, 95000, 100000 - 95000, (100000 - 95000) / 100000 * 100⟩,
    ⟨"Servo Init", 95000, 93000, 95000 - 93000, (95000 - 93000) / 100000 * 100⟩,
    ⟨"MQTT Init", 93000, 90000, 93000 - 90000, (93000 - 90000) / 100000 * 100⟩,
    ⟨"Total System Init", 100000, 90000, 100000 - 90000, (100000 - 90000) / 100000 * 100⟩]

/-- A run with five `Before` gate events but only three `After` gate
events (the spec's 5-vs-3 truncation example). -/
def dfGate : List Row :=
  [⟨0, "Before open entry gate", 100, 10, 90, 5⟩,
    ⟨1, "Before close entry gate", 99, 11, 89, 5⟩,
    ⟨2, "Before open entry gate", 98, 12, 88, 5⟩,
    ⟨3, "Before open entry gate", 97, 13, 87, 5⟩,
    ⟨4, "Before close entry gate", 96, 14, 86, 5⟩,
    ⟨5, "After open entry gate", 95, 15, 85, 5⟩,
    ⟨6, "After close entry gate", 94, 16, 84, 5⟩,
    ⟨7, "After open entry gate", 93, 17, 83, 5⟩]

/-- A run with two complete gate cycles. -/
def dfPairs : List Row :=
  [⟨0, "Before open entry gate", 100, 10, 90, 5⟩,
    ⟨1, "After open entry gate", 97, 13, 87, 5⟩,
    ⟨2, "Before close entry gate", 96, 14, 86, 5⟩,
    ⟨3, "After close entry gate", 94, 16, 84, 5⟩]

/-- A run with the six initialization events and no gate event at all. -/
def dfInitOnly : List Row :=
  [⟨0, "Before WiFi init", 100000, 20000, 80000, 50000⟩,
    ⟨1, "After WiFi init", 95000, 25000, 76000, 50000⟩,
    ⟨2, "Before Servo init", 95000, 25000, 76000, 50000⟩,
    ⟨3, "After Servo init", 93000, 27000, 74000, 50000⟩,
    ⟨4, "Before MQTT init", 93000, 27000, 74000, 50000⟩,
    ⟨5, "After MQTT init", 90000, 30000, 72000, 50000⟩]

/-- A run in which the device never logs `After MQTT init`: every other
initialization label and a full gate cycle are present. -/
def dfNoMqtt : List Row :=
  [⟨0, "Before WiFi init", 100000, 20000, 80000, 50000⟩,
    ⟨1, "After WiFi init", 95000, 25000, 76000, 50000⟩,
    ⟨2, "Before Servo init", 95000, 25000, 76000, 50000⟩,
    ⟨3, "After Servo init", 93000, 27000, 74000, 50000⟩,
    ⟨4, "Before MQTT init", 93000, 27000, 74000, 50000⟩,
    ⟨5, "Before open entry gate", 89000, 31000, 71000, 50000⟩,
    ⟨6, "After open entry gate", 88000, 32000, 70000, 50000⟩]

/-- Two gate rows whose per-row fragmentation indices average differently
from the fragmentation index of the column averages. -/
def dfOps : List Row :=
  [⟨0, "Before open entry gate", 100, 10, 50, 5⟩,
    ⟨1, "After open entry gate", 200, 20, 60, 5⟩]

/-- A single sample row with a positive free heap and a nonzero largest
free block. -/
def rowFrag : Row :=
  ⟨0, "probe", 4, 2, 1, 1⟩

theorem gate_ops_memory_length (df : List Row) :
    (gate_ops_memory df).length
      = min (gate_ops_before_all df).length (gate_ops_after_all df).length := by
  rw [gate_ops_memory, pairRows_length, length_gate_ops_before, length_gate_ops_after,
    Nat.min_self]
  rfl

/-- C1: filtering on the gate-event patterns and splitting by the
`Before`/`After` substrings gives `B` before-rows and `A` after-rows;
`gate_ops_memory` then has exactly `min B A` rows, its `i`-th row copying
the heap snapshots of the `i`-th before-row and the `i`-th after-row in
file order, so any unmatched trailing rows on either side are dropped. -/
theorem gate_ops_memory_pairing (df : List Row) :
    (gate_ops_memory df).length
        = min (gate_ops_before_all df).length (gate_ops_after_all df).length ∧
      ∀ (i : ℕ) (h : i < (gate_ops_memory df).length),
        ∃ (hb : i < (gate_ops_before_all df).length)
          (ha : i < (gate_ops_after_all df).length),
          ((gate_ops_memory df).get ⟨i, h⟩).free_heap_before
              = ((gate_ops_before_all df).get ⟨i, hb⟩).free_heap ∧
            ((gate_ops_memory df).get ⟨i, h⟩).free_heap_after
              = ((gate_ops_after_all df).get ⟨i, ha⟩).free_heap ∧
            ((gate_ops_memory df).get ⟨i, h⟩).allocated_before
              = ((gate_ops_before_all df).get ⟨i, hb⟩).total_allocated_bytes ∧
            ((gate_ops_memory df).get ⟨i, h⟩).allocated_after
              = ((gate_ops_after_all df).get ⟨i, ha⟩).total_allocated_bytes := by
  refine ⟨gate_ops_memory_length df, fun i h => ?_⟩
  obtain ⟨hb', ha', he⟩ := pairRows_get 0 (gate_ops_before df) (gate_ops_after df) i h
  have hbm : i < min_ops df := (length_gate_ops_before df) ▸ hb'
  have hb : i < (gate_ops_before_all df).length :=
    lt_of_lt_of_le hbm (Nat.min_le_left _ _)
  have ha : i < (gate_ops_after_all df).length :=
    lt_of_lt_of_le hbm (Nat.min_le_right _ _)
  have heb : (gate_ops_before df).get ⟨i, hb'⟩ = (gate_ops_before_all df).get ⟨i, hb⟩ :=
    take_get _ _ _ _ _
  have hea : (gate_ops_after df).get ⟨i, ha'⟩ = (gate_ops_after_all df).get ⟨i, ha⟩ :=
    take_get _ _ _ _ _
  refine ⟨hb, ha, ?_⟩
  rw [show (gate_ops_memory df).get ⟨i, h⟩
        = mkGateOp (0 + i) ((gate_ops_before df).get ⟨i, hb'⟩)
            ((gate_ops_after df).get ⟨i, ha'⟩) from he,
    heb, hea]
  exact ⟨rfl, rfl, rfl, rfl⟩

/-- C2: in every `gate_ops_memory` row the derived columns satisfy
`memory_used = free_heap_before - free_heap_after` and
`allocation_increase = allocated_after - allocated_before` (lines 38-39),
and when the before- and after-counts agree on `N` the frame has exactly
`N` rows. -/
theorem gate_ops_memory_columns (df : List Row) :
    (∀ g ∈ gate_ops_memory df,
        g.memory_used = g.free_heap_before - g.free_heap_after ∧
          g.allocation_increase = g.allocated_after - g.allocated_before) ∧
      ((gate_ops_before_all df).length = (gate_ops_after_all df).length →
        (gate_ops_memory df).length = (gate_ops_before_all df).length) := by
  refine ⟨fun g hg => pairRows_mem 0 _ _ g hg, fun hN => ?_⟩
  rw [gate_ops_memory_length df, hN, Nat.min_self]

/-- C3: for a row with positive free heap and a non-negative integer
largest free block, `fragmentation_percent` is at most `100`, and it equals
`100` exactly when the largest free block is `0`. -/
theorem fragmentation_percent_bounds (r : Row) (hf : 0 < r.free_heap) (n : ℕ)
    (hl : r.largest_free_block = (n : ℚ)) :
    fragmentation_percent r ≤ 100 ∧
      (fragmentation_percent r = 100 ↔ r.largest_free_block = 0) := by
  have hl0 : 0 ≤ r.largest_free_block := by
    rw [hl]
    exact Nat.cast_nonneg n
  have hdiv : 0 ≤ r.largest_free_block / r.free_heap := div_nonneg hl0 hf.le
  unfold fragmentation_percent
  refine ⟨by nlinarith, ?_, ?_⟩
  · intro h
    have hd : r.largest_free_block / r.free_heap = 0 := by nlinarith
    rcases div_eq_zero_iff.mp hd with h0 | h0
    · exact h0
    · exact absurd h0 hf.ne'
  · intro h0
    rw [h0]
    simp

/-- C4: a row lands in `init_data` exactly when its event text contains the
substring `Before`, or one of the substrings `After WiFi init`,
`After MQTT init`, `After Servo init` (the line-17 regex distributed over
its alternation); in particular any `Before ...` gate event qualifies. -/
theorem init_data_membership (df : List Row) (r : Row) :
    r ∈ init_data df ↔
      r ∈ df ∧
        (SpecContains r.event "Before" ∨ SpecContains r.event "After WiFi init" ∨
          SpecContains r.event "After MQTT init" ∨ SpecContains r.event "After Servo init") := by
  rw [init_data, List.mem_filter, initMatch]
  simp only [Bool.or_eq_true, strContains_iff, or_assoc]
/-- C5: the claim states the behavior of lines 197-211 -- each summary cell
is the free heap of the first row whose event exactly equals
`Before/After <Name> init`, and a missing exact label aborts with an
index/lookup error.  That is the intended behavior of those lines (and what
the spec documents), but they are unreachable: every run raises
`ValueError` at line 73 first, so no input produces the summary and a
missing label never surfaces as an index error.  Evaluating the code: on
`dfFull` (all six labels present) the program's tail still produces
nothing, while the unreachable lines would return `lFull`; on `dfNoMqtt`
(a label missing) they would abort exactly as the claim says. -/
theorem init_summary_never_produced :
    reports dfFull = none ∧ init_summary dfFull = some lFull ∧
      init_summary dfNoMqtt = none ∧ reports dfNoMqtt = none :=
  ⟨rfl, rfl, rfl, rfl⟩

/-- C6: the claim's delta and percentage equations (lines 213-214) hold of
the summary the unreachable lines 197-214 would build -- on `dfFull`, the
spec's worked example, the `WiFi Init` row would carry
`Delta = 100000 - 95000` and `% = (100000 - 95000) / 100000 * 100` -- but
the program itself builds no summary: it faults at line 73 on every run. -/
theorem init_summary_delta_dead :
    reports dfFull = none ∧ init_summary dfFull = some lFull ∧
      ∀ r ∈ lFull,
        r.delta_bytes = r.before_bytes - r.after_bytes ∧
          r.pct_of_initial = r.delta_bytes / (100000 : ℚ) * 100 := by
  refine ⟨rfl, rfl, fun r hr => ?_⟩
  simp only [lFull, List.mem_cons, List.not_mem_nil, or_false] at hr
  rcases hr with rfl | rfl | rfl | rfl <;> exact ⟨rfl, rfl⟩

/-- C7 counterexample: `dfFull` has an `After MQTT init` row, yet the pie
chart is not produced -- the run dies at line 73 before the line-303 pie
block, so there is no output at all -- refuting the claimed equivalence of
pie-chart production with the presence of that row. -/
theorem pie_chart_claim_fails :
    ¬ ((∃ r ∈ dfFull, r.event = "After MQTT init") →
        ∃ out, reports dfFull = some out ∧ (out.pie).isSome) := by
  intro hcl
  obtain ⟨out, hout, -⟩ := hcl (by decide)
  exact Option.noConfusion hout

/-- C7 (amended): the pie chart is never produced: every run raises
`ValueError` at line 73, before the line-303 pie block, whether or not an
`After MQTT init` row exists -- so when no such row exists no pie-chart
file is written, but the rest of the pipeline past line 73 is not produced
either.  In the unreachable block, the chart would use
`total_allocated_bytes` and `free_heap` of the first `After MQTT init`
row. -/
theorem pie_chart_amended (df : List Row) :
    reports df = none ∧
      ∀ r, firstWith df "After MQTT init" = some r →
        pie_chart df = some (r.total_allocated_bytes, r.free_heap) := by
  refine ⟨rfl, fun r hr => ?_⟩
  rw [pie_chart, final_init, hr]
  rfl

/-- C8 counterexample: `dfInitOnly` has no gate-operation row at all, yet
the program does not complete -- the line-73 `ValueError` kills the run, so
none of the output files past the first chart is written. -/
theorem empty_gate_claim_fails :
    ¬ ((∀ r ∈ dfInitOnly, gateMatch r.event = false) →
        (reports dfInitOnly).isSome) := by
  intro hcl
  exact absurd (hcl (by decide)) (by decide)

/-- C8 (amended): when no row matches the gate-operation patterns, the gate
computations that do execute (lines 25-39) degrade without error --
`gate_ops` and `gate_ops_memory` are empty -- and the operation summary the
unreachable line-233 code would build consists solely of its appended
`Average` row whose cells are means of empty columns (pandas `NaN`, here
`none`).  But the program never completes on any input: it aborts at
line 73, so no summary table or CSV is ever written. -/
theorem empty_gate_ops_amended (df : List Row)
    (hg : ∀ r ∈ df, gateMatch r.event = false) :
    gate_ops df = [] ∧ gate_ops_memory df = [] ∧
      operation_summary df = [⟨"Average", none, none, none, none, none⟩] ∧
      reports df = none := by
  have hge : gate_ops df = [] := by
    rw [gate_ops, List.filter_eq_nil_iff]
    intro a ha
    simp [hg a ha]
  have hmem : gate_ops_memory df = [] := by
    have hlen := gate_ops_memory_length df
    rw [gate_ops_before_all, gate_ops_after_all, hge] at hlen
    simp only [List.filter_nil, List.length_nil, Nat.min_self] at hlen
    exact List.length_eq_zero.mp hlen
  refine ⟨hge, hmem, ?_, rfl⟩
  rw [operation_summary, hmem]
  simp [colMean]

/-- C9: in the summary the unreachable lines 197-214 would build from
`dfFull`, row 3 is `Total System Init` with `Before` from the first
`Before WiFi init` row (line 203), `After` from the first `After MQTT
init` row (line 209), and their difference as delta -- no `Total System
Init` event label is ever looked up -- but the program builds no such row:
it faults at line 73 on every input. -/
theorem init_summary_total_dead :
    reports dfFull = none ∧ init_summary dfFull = some lFull ∧
      ∃ h3 : 3 < lFull.length,
        (lFull.get ⟨3, h3⟩).operation = "Total System Init" ∧
          (lFull.get ⟨3, h3⟩).before_bytes = (100000 : ℚ) ∧
          (lFull.get ⟨3, h3⟩).after_bytes = (90000 : ℚ) ∧
          (lFull.get ⟨3, h3⟩).delta_bytes = (100000 : ℚ) - 90000 :=
  ⟨rfl, rfl, by decide, rfl, rfl, rfl, rfl⟩

/-- C10: in the fragmentation summary the unreachable lines 259-284 would
build, the `During Operations` row is appended exactly when gate rows
exist (on `dfOps` it is, on the gate-free `dfInitOnly` it is not) and its
index is `(1 - mean(largest_free_block) / mean(free_heap)) * 100` from the
column means over all gate rows -- but the program never computes it: every
run faults at line 73 before line 259. -/
theorem frag_summary_during_dead :
    reports dfOps = none ∧
      frag_summary dfOps
        = frag_init_stages dfOps ++
            [⟨"During Operations",
                meanQ ((gate_ops dfOps).map Row.free_heap),
                meanQ ((gate_ops dfOps).map Row.largest_free_block),
                (1 - meanQ ((gate_ops dfOps).map Row.largest_free_block) /
                    meanQ ((gate_ops dfOps).map Row.free_heap)) * 100⟩] ∧
      ∀ fr ∈ frag_summary dfInitOnly, fr.stage ≠ "During Operations" :=
  ⟨rfl, rfl, by decide⟩

theorem gate_ops_memory_pairing_witness :
    (gate_ops_memory dfGate).length
        = min (gate_ops_before_all dfGate).length (gate_ops_after_all dfGate).length ∧
      (gate_ops_memory dfGate).length = 3 ∧
      ∃ (h : 0 < (gate_ops_memory dfGate).length)
        (hb : 0 < (gate_ops_before_all dfGate).length)
        (ha : 0 < (gate_ops_after_all dfGate).length),
        ((gate_ops_memory dfGate).get ⟨0, h⟩).free_heap_before
            = ((gate_ops_before_all dfGate).get ⟨0, hb⟩).free_heap ∧
          ((gate_ops_memory dfGate).get ⟨0, h⟩).free_heap_after
            = ((gate_ops_after_all dfGate).get ⟨0, ha⟩).free_heap := by
  obtain ⟨h1, h2⟩ := gate_ops_memory_pairing dfGate
  have h : 0 < (gate_ops_memory dfGate).length := by decide
  obtain ⟨hb, ha, hfb, hfa, -, -⟩ := h2 0 h
  exact ⟨h1, by decide, h, hb, ha, hfb, hfa⟩

theorem gate_ops_memory_columns_witness :
    (∀ g ∈ gate_ops_memory dfPairs,
        g.memory_used = g.free_heap_before - g.free_heap_after ∧
          g.allocation_increase = g.allocated_after - g.allocated_before) ∧
      (gate_ops_memory dfPairs).length = 2 := by
  obtain ⟨h1, h2⟩ := gate_ops_memory_columns dfPairs
  exact ⟨h1, (h2 (by decide)).trans (by decide)⟩

theorem fragmentation_percent_bounds_witness :
    0 < rowFrag.free_heap ∧
      (fragmentation_percent rowFrag ≤ 100 ∧
        (fragmentation_percent rowFrag = 100 ↔ rowFrag.largest_free_block = 0)) :=
  ⟨by decide, fragmentation_percent_bounds rowFrag (by decide) 1 (by decide)⟩
theorem pie_chart_amended_witness :
    reports dfFull = none ∧
      pie_chart dfFull = some ((30000 : ℚ), (90000 : ℚ)) :=
  ⟨(pie_chart_amended dfFull).1,
    (pie_chart_amended dfFull).2
      ⟨5, "After MQTT init", 90000, 30000, 72000, 50000⟩ rfl⟩

theorem empty_gate_ops_amended_witness :
    gate_ops dfInitOnly = [] ∧ gate_ops_memory dfInitOnly = [] ∧
      operation_summary dfInitOnly = [⟨"Average", none, none, none, none, none⟩] ∧
      reports dfInitOnly = none :=
  empty_gate_ops_amended dfInitOnly (by decide)

end GateReport
